import Mathlib

/-!
Verification of the gamification scoring engine of the `geeksboard` repository
(`core/models.py`, `core/utils.py`, `core/views.py`).

The relational store is embedded as explicit lists of rows.  Timestamps are
embedded as integers; the monthly window `[first-of-month, first-of-next-month)`
computed by the source from a calendar datetime is embedded as an explicit
half-open interval `[start, end_)`.  SQL `ORDER BY` is embedded as a stable
insertion sort over the stored row order (ties that the SQL key does not
separate keep the stored order, matching row-order results of the backend).
-/

namespace Geeksboard

/-- Row of `PointCategory` (`core/models.py`): `max_score` is a positive-integer
bound on the absolute score of each event, `slug` is unique. -/
structure PointCategory where
  id : Nat
  name : String
  slug : String
  max_score : Nat
  is_active : Bool
  deriving DecidableEq, Repr

/-- Row of `Student` (`core/models.py`): belongs to exactly one group. -/
structure Student where
  id : Nat
  group_id : Nat
  full_name : String
  deriving DecidableEq, Repr

/-- Row of `Group` (`core/models.py`). -/
structure Group where
  id : Nat
  name : String
  deriving DecidableEq, Repr

/-- Row of `StudentPoint` (`core/models.py`): the point ledger entry, with a
signed `score` and a timestamp `date` (embedded as an integer). -/
structure StudentPoint where
  student_id : Nat
  category_id : Nat
  score : Int
  reason : String
  date : Int
  note : String
  deriving DecidableEq, Repr

/-- Row of `Badge` (`core/models.py`): `criteria_type` is one of the five
criterion kinds, `criteria_value` the threshold. -/
structure Badge where
  id : Nat
  name : String
  criteria_type : String
  criteria_value : Nat
  is_active : Bool
  deriving DecidableEq, Repr

/-- Row of `StudentBadge` (`core/models.py`): join fact that a student earned a
badge; the table carries a uniqueness constraint on `(student, badge)`. -/
structure StudentBadge where
  student_id : Nat
  badge_id : Nat
  deriving DecidableEq, Repr

/-- The relational store consumed by the engine: one list of rows per table,
in stored row order. -/
structure DB where
  categories : List PointCategory
  groups : List Group
  students : List Student
  points : List StudentPoint
  badges : List Badge
  student_badges : List StudentBadge
  deriving DecidableEq, Repr

/-- Date-range filter applied by `Student.total_score`: `date >= start` when a
start bound is given and `date < end` when an end bound is given
(half-open window, `core/models.py` lines 94-100). -/
def inWindow (start? end? : Option Int) (d : Int) : Bool :=
  (match start? with | some a => decide (a ≤ d) | none => true)
    && (match end? with | some b => decide (d < b) | none => true)

/-- Embeds `Student.total_score` (`core/models.py`): signed sum of the student's point
events inside the optional half-open date range; an empty selection sums to 0
(the source's `or 0` on the SQL aggregate). -/
def Student.total_score (db : DB) (s : Student) (start? end? : Option Int) : Int :=
  ((db.points.filter fun p => p.student_id == s.id && inWindow start? end? p.date).map
    (fun p => p.score)).sum

/-- Branch structure of `Student.get_level` (`core/models.py` lines 102-110) as a
function of the total: `< 51` Beginner, `< 151` Intermediate, otherwise Pro. -/
def level_from_total (total : Int) : String :=
  if total < 51 then "Beginner"
  else if total < 151 then "Intermediate"
  else "Pro"

/-- Embeds `Student.get_level` (`core/models.py`): level of the student's all-time
total score. -/
def Student.get_level (db : DB) (s : Student) : String :=
  level_from_total (Student.total_score db s none none)

/-- Result of `Student.get_level_thresholds` (`core/models.py`): `current_max`
is `none` for the source's `float('inf')` at the Pro tier; at Pro the three
`next` fields are the source's `None` (`next_max` is also `none` at the
Intermediate tier, where the source stores `float('inf')` — the field is never
read by the engine). -/
structure LevelThresholds where
  current : String
  current_min : Int
  current_max : Option Int
  next_level : Option String
  next_min : Option Int
  next_max : Option Int
  deriving DecidableEq, Repr

/-- Branch structure of `Student.get_level_thresholds` (`core/models.py` lines
112-141) as a function of the total. -/
def thresholds_from_total (total : Int) : LevelThresholds :=
  if total < 51 then
    { current := "Beginner", current_min := 0, current_max := some 50
      next_level := some "Intermediate", next_min := some 51, next_max := some 150 }
  else if total < 151 then
    { current := "Intermediate", current_min := 51, current_max := some 150
      next_level := some "Pro", next_min := some 151, next_max := none }
  else
    { current := "Pro", current_min := 151, current_max := none
      next_level := none, next_min := none, next_max := none }

/-- Embeds `Student.get_level_thresholds` (`core/models.py`). -/
def Student.get_level_thresholds (db : DB) (s : Student) : LevelThresholds :=
  thresholds_from_total (Student.total_score db s none none)

/-- Arithmetic of `Student.get_progress_percentage` (`core/models.py` lines
143-152) as a function of the total, in exact rational arithmetic: 100 at the
terminal tier (`next` is `None`), otherwise
`min 100 ((total - current_min) / (current_max - current_min + 1) * 100)`. -/
def progress_from_total (total : Int) : ℚ :=
  let th := thresholds_from_total total
  match th.next_level, th.current_max with
  | none, _ => 100
  | some _, none => 100
  | some _, some cmax =>
      min 100 ((((total : ℚ) - th.current_min)) / ((cmax : ℚ) - th.current_min + 1) * 100)

/-- Embeds `Student.get_progress_percentage` (`core/models.py`). -/
def Student.get_progress_percentage (db : DB) (s : Student) : ℚ :=
  progress_from_total (Student.total_score db s none none)

/-- Result dict of `Student.get_trend` (`core/models.py` lines 154-175). -/
structure TrendResult where
  current : Int
  previous : Int
  change : Int
  change_percent : ℚ
  direction : String
  deriving DecidableEq, Repr

/-- Embeds `Student.get_trend` (`core/models.py`): `current` is the total in
`[now - days, ∞)` (the source passes no end bound for the current window),
`previous` the total in `[now - 2*days, now - days)`; `change_percent` divides
by `abs(previous)` unless `previous == 0`, in which case it is 100 or 0. -/
def Student.get_trend (db : DB) (s : Student) (now days : Int) : TrendResult :=
  let current_start := now - days
  let previous_start := current_start - days
  let current_points := Student.total_score db s (some current_start) none
  let previous_points := Student.total_score db s (some previous_start) (some current_start)
  let change_percent : ℚ :=
    if previous_points = 0 then (if 0 < current_points then 100 else 0)
    else ((current_points : ℚ) - (previous_points : ℚ)) / |(previous_points : ℚ)| * 100
  { current := current_points
    previous := previous_points
    change := current_points - previous_points
    change_percent := change_percent
    direction :=
      if previous_points < current_points then "up"
      else if current_points < previous_points then "down"
      else "neutral" }

/-- Kernel-evaluable decidability for `≤` on `String` (the built-in iterator
comparison `String.ltb` does not reduce in the kernel), via the equivalent
character-list order. -/
instance (priority := 2000) decNameLe (a b : String) : Decidable (a ≤ b) :=
  decidable_of_iff (a.toList ≤ b.toList) String.le_iff_toList_le.symm

/-! ### Validation of point events (`StudentPoint.clean` / `StudentPoint.save`) -/

/-- Embeds `StudentPoint.clean` (`core/models.py` lines 228-231): raises a
`ValidationError` when the event's absolute score exceeds its category's
`max_score`. -/
def StudentPoint.clean (p : StudentPoint) (cat : PointCategory) : Except String Unit :=
  if (cat.max_score : Int) < |p.score| then
    Except.error "Absolute score cannot exceed category max score"
  else Except.ok ()

/-- Embeds `StudentPoint.save` (`core/models.py` lines 233-235): runs `full_clean`
(which calls `clean` against the event's category) and only then persists the
row; a validation failure persists nothing. -/
def StudentPoint.save (db : DB) (p : StudentPoint) (cat : PointCategory) : Except String DB :=
  match StudentPoint.clean p cat with
  | Except.error e => Except.error e
  | Except.ok _ => Except.ok { db with points := db.points ++ [p] }

/-! ### Ranking -/

/-- Roster of a group (`group.students`), in stored row order. -/
def groupStudents (db : DB) (gid : Nat) : List Student :=
  db.students.filter fun s => s.group_id == gid

/-- Ordering of the `student_rating` view (`core/views.py` lines 331-334):
total descending, ties broken by `full_name` ascending, where the view's
`Sum('points__score', default=0)` makes a student with no events count as
total 0.  The view itself ranks all-time (`start? = end? = none`); the window
parameters generalize the same key list.  This is NOT the ordering of
`Group.monthly_ranking`, whose `Sum` lacks `default=0` and therefore yields
`NULL` — not 0 — for students with no events in the window (see
`monthly_total` and `Group.monthly_ranking` below). -/
def rankRel (db : DB) (start? end? : Option Int) (a b : Student) : Prop :=
  Student.total_score db b start? end? < Student.total_score db a start? end? ∨
    (Student.total_score db a start? end? = Student.total_score db b start? end? ∧
      a.full_name ≤ b.full_name)

instance (db : DB) (start? end? : Option Int) : DecidableRel (rankRel db start? end?) :=
  fun a b => by unfold rankRel; infer_instance

instance (db : DB) (start? end? : Option Int) : IsTotal Student (rankRel db start? end?) where
  total a b := by
    unfold rankRel
    rcases lt_trichotomy (Student.total_score db a start? end?)
        (Student.total_score db b start? end?) with h | h | h
    · exact Or.inr (Or.inl h)
    · rcases le_total a.full_name b.full_name with hn | hn
      · exact Or.inl (Or.inr ⟨h, hn⟩)
      · exact Or.inr (Or.inr ⟨h.symm, hn⟩)
    · exact Or.inl (Or.inl h)

instance (db : DB) (start? end? : Option Int) : IsTrans Student (rankRel db start? end?) where
  trans a b c hab hbc := by
    unfold rankRel at *
    rcases hab with hab | ⟨hab, hnab⟩ <;> rcases hbc with hbc | ⟨hbc, hnbc⟩
    · exact Or.inl (hbc.trans hab)
    · exact Or.inl (hbc ▸ hab)
    · exact Or.inl (hab ▸ hbc)
    · exact Or.inr ⟨hab.trans hbc, hnab.trans hnbc⟩

/-- The all-time rating order of the `student_rating` view (`core/views.py`
lines 331-334), generalized over an optional window: summed score descending
(absent events counting 0, the view's `default=0`), ties by full name
ascending.  The windowed ranking of the source, `Group.monthly_ranking`, is
embedded separately below because its missing-value (`NULL`) semantics
differ. -/
def rank_students (db : DB) (gid : Nat) (start? end? : Option Int) : List Student :=
  List.insertionSort (rankRel db start? end?) (groupStudents db gid)

/-- Annotated total of `Group.monthly_ranking` (`core/models.py` lines 53-58):
`Sum('points__score', filter=Q(date in [start, end_)))` with NO `default` — a
student with no events in the window carries SQL `NULL`, embedded as `⊥`;
students with events get their signed sum (possibly 0, which is distinct from
`NULL`). -/
def monthly_total (db : DB) (sid : Nat) (start end_ : Int) : WithBot Int :=
  let events := db.points.filter fun p =>
    p.student_id == sid && inWindow (some start) (some end_) p.date
  if events.isEmpty then ⊥ else (((events.map fun p => p.score).sum : Int) : WithBot Int)

/-- Ordering of `Group.monthly_ranking` (`core/models.py` line 59):
`order_by('-monthly_total', 'full_name')` over the nullable monthly totals.
`⊥` (= SQL `NULL`) compares below every numeric total, so the descending key
places all `NULL` students after all students with events — SQLite's `DESC`
placement of `NULL`; the repository pins no backend, and Postgres would place
them first instead.  Ties on the total (including among the `NULL` group)
fall to `full_name` ascending. -/
def monthlyRankRel (db : DB) (start end_ : Int) (a b : Student) : Prop :=
  monthly_total db b.id start end_ < monthly_total db a.id start end_ ∨
    (monthly_total db a.id start end_ = monthly_total db b.id start end_ ∧
      a.full_name ≤ b.full_name)

instance (db : DB) (start end_ : Int) : DecidableRel (monthlyRankRel db start end_) :=
  fun a b => by unfold monthlyRankRel; infer_instance

instance (db : DB) (start end_ : Int) : IsTotal Student (monthlyRankRel db start end_) where
  total a b := by
    unfold monthlyRankRel
    rcases lt_trichotomy (monthly_total db a.id start end_)
        (monthly_total db b.id start end_) with h | h | h
    · exact Or.inr (Or.inl h)
    · rcases le_total a.full_name b.full_name with hn | hn
      · exact Or.inl (Or.inr ⟨h, hn⟩)
      · exact Or.inr (Or.inr ⟨h.symm, hn⟩)
    · exact Or.inl (Or.inl h)

instance (db : DB) (start end_ : Int) : IsTrans Student (monthlyRankRel db start end_) where
  trans a b c hab hbc := by
    unfold monthlyRankRel at *
    rcases hab with hab | ⟨hab, hnab⟩ <;> rcases hbc with hbc | ⟨hbc, hnbc⟩
    · exact Or.inl (hbc.trans hab)
    · exact Or.inl (hbc ▸ hab)
    · exact Or.inl (hab ▸ hbc)
    · exact Or.inr ⟨hab.trans hbc, hnab.trans hnbc⟩

/-- Embeds `Group.monthly_ranking` (`core/models.py` lines 45-61),
parameterized by the month as the half-open window `[start, end_)`: the
group's students ordered by nullable monthly total descending (`NULL` last),
then full name ascending; the source's final `.values(...)` projection is
elided. -/
def Group.monthly_ranking (db : DB) (gid : Nat) (start end_ : Int) : List Student :=
  List.insertionSort (monthlyRankRel db start end_) (groupStudents db gid)

/-- Ordering by summed score in a window descending with NO further key
(`order_by('-total_points')` in `core/utils.py` line 88, and
`order_by('-monthly_total')` in line 188): ties that the key does not separate
keep the stored row order (stable sort). -/
def scoreDescRel (db : DB) (start? end? : Option Int) (a b : Student) : Prop :=
  Student.total_score db b start? end? ≤ Student.total_score db a start? end?

instance (db : DB) (start? end? : Option Int) : DecidableRel (scoreDescRel db start? end?) :=
  fun _ _ => by unfold scoreDescRel; infer_instance

instance (db : DB) (start? end? : Option Int) : IsTotal Student (scoreDescRel db start? end?) where
  total _ _ := le_total _ _

instance (db : DB) (start? end? : Option Int) : IsTrans Student (scoreDescRel db start? end?) where
  trans _ _ _ hab hbc := le_trans hbc hab

/-- The group roster ordered for the `top_rank` criterion: all-time totals
descending, stored order at ties (`core/utils.py` lines 86-88). -/
def top_rank_order (db : DB) (gid : Nat) : List Student :=
  List.insertionSort (scoreDescRel db none none) (groupStudents db gid)

/-- Embeds `student_rank` in the `top_rank` branch (`core/utils.py` line 89): 1-based
index of the student's id in the ordered id list. -/
def student_rank (db : DB) (s : Student) : Nat :=
  ((top_rank_order db s.group_id).map (fun t => t.id)).indexOf s.id + 1

/-! ### Badge rule evaluator (`check_and_assign_badges`, `core/utils.py` 26-96) -/

/-- Embeds `PointCategory.objects.filter(slug=...).first()`: the matching rows in the
model's default ordering (`Meta.ordering = ['name']`), first one if any. -/
def first_category_with_slug (db : DB) (sl : String) : Option PointCategory :=
  (List.insertionSort (fun a b : PointCategory => a.name ≤ b.name)
    (db.categories.filter fun c => c.slug == sl)).head?

/-- Embeds `PointCategory.objects.first()`-style access: all categories in the model's
default ordering (`Meta.ordering = ['name']`). -/
def categories_by_name (db : DB) : List PointCategory :=
  List.insertionSort (fun a b : PointCategory => a.name ≤ b.name) db.categories

/-- Count of the student's strictly positive events in a category
(`StudentPoint.objects.filter(student=..., category=..., score__gt=0).count()`). -/
def positive_count (db : DB) (sid cid : Nat) : Nat :=
  (db.points.filter fun p =>
    p.student_id == sid && p.category_id == cid && decide (0 < p.score)).length

/-- The per-badge qualification test of `check_and_assign_badges`
(`core/utils.py` lines 39-90): dispatch on `criteria_type`; the three
category-based criteria never qualify when the category slug is missing. -/
def badge_qualifies (db : DB) (s : Student) (b : Badge) : Bool :=
  if b.criteria_type == "total_points" then
    decide ((b.criteria_value : Int) ≤ Student.total_score db s none none)
  else if b.criteria_type == "homework_completion" then
    match first_category_with_slug db "homework" with
    | some cat => decide (b.criteria_value ≤ positive_count db s.id cat.id)
    | none => false
  else if b.criteria_type == "participation_count" then
    match first_category_with_slug db "participation" with
    | some cat => decide (b.criteria_value ≤ positive_count db s.id cat.id)
    | none => false
  else if b.criteria_type == "attendance_count" then
    match first_category_with_slug db "attendance" with
    | some cat => decide (b.criteria_value ≤ positive_count db s.id cat.id)
    | none => false
  else if b.criteria_type == "top_rank" then
    decide (student_rank db s ≤ b.criteria_value)
  else false

/-- Embeds `StudentBadge.objects.filter(student=..., badge=...).exists()`. -/
def hasBadge (db : DB) (sid bid : Nat) : Bool :=
  db.student_badges.any fun r => r.student_id == sid && r.badge_id == bid

/-- Number of `StudentBadge` rows for a (student, badge) pair. -/
def sbCount (l : List StudentBadge) (sid bid : Nat) : Nat :=
  (l.filter fun r => r.student_id == sid && r.badge_id == bid).length

/-- Embeds `Badge.objects.filter(is_active=True)` in the model's default ordering
(`Meta.ordering = ['name']`). -/
def active_badges (db : DB) : List Badge :=
  List.insertionSort (fun a b : Badge => a.name ≤ b.name)
    (db.badges.filter fun b => b.is_active)

/-- One iteration of the badge loop (`core/utils.py` lines 34-94): skip when
the student already holds the badge, otherwise test qualification and, on
success, create the `StudentBadge` row and append the badge to the
newly-earned list. -/
def badge_step (s : Student) (acc : List Badge × DB) (b : Badge) : List Badge × DB :=
  if hasBadge acc.2 s.id b.id then acc
  else if badge_qualifies acc.2 s b then
    (acc.1 ++ [b],
      { acc.2 with student_badges := acc.2.student_badges ++ [⟨s.id, b.id⟩] })
  else acc

/-- Embeds `check_and_assign_badges` (`core/utils.py` lines 26-96): fold the badge
loop over the active badges, returning the newly earned badges and the updated
store. -/
def check_and_assign_badges (db : DB) (s : Student) : List Badge × DB :=
  (active_badges db).foldl (badge_step s) ([], db)

/-- The category slug each category-based criterion requires
(`core/utils.py` lines 45-82). -/
def slug_for_criteria (ct : String) : Option String :=
  if ct == "homework_completion" then some "homework"
  else if ct == "participation_count" then some "participation"
  else if ct == "attendance_count" then some "attendance"
  else none

/-! ### Monthly reward scheduler (`assign_monthly_rewards`, `core/utils.py` 150-213) -/

/-- The fixed position rewards (`core/utils.py` line 192). -/
def rewards : List Int := [15, 10, 5]

/-- Statistics dict returned by `assign_monthly_rewards`. -/
structure RewardStats where
  groups_processed : Nat
  students_rewarded : Nat
  points_awarded : Int
  deriving DecidableEq, Repr

/-- Top-3 selection of `assign_monthly_rewards` (`core/utils.py` lines
179-189): annotate each roster student with the month's total (`default=0`),
keep totals `> 0`, order by total descending (no further key), take 3. -/
def top_students (db : DB) (gid : Nat) (start end_ : Int) : List Student :=
  (List.insertionSort (scoreDescRel db (some start) (some end_))
    ((groupStudents db gid).filter fun s =>
      decide (0 < Student.total_score db s (some start) (some end_)))).take 3

/-- Note text of a reward event (`core/utils.py` line 204); the month name is
elided from the embedding. -/
def reward_note (idx : Nat) : String := "Top " ++ toString (idx + 1) ++ " student"

/-- Creation of one reward event (`core/utils.py` lines 199-205): category is
the "homework" category or, when absent, the first existing category; the
`save` runs the max-score validation. -/
def create_reward (db : DB) (s : Student) (hw_cat : Option PointCategory)
    (score : Int) (idx : Nat) (now : Int) : Except String DB :=
  match hw_cat.orElse (fun _ => (categories_by_name db).head?) with
  | none => Except.error "no point category"
  | some cat =>
      StudentPoint.save db
        { student_id := s.id, category_id := cat.id, score := score
          reason := "Monthly Reward", date := now, note := reward_note idx } cat

/-- The per-group award loop (`core/utils.py` lines 194-211): walk the top
students with their 0-based index, award `rewards[idx]` when `idx` is in
range, re-evaluate badges after each award, and accumulate
(students_rewarded, points_awarded). -/
def award_loop (hw_cat : Option PointCategory) (now : Int) :
    List Student → Nat → DB → Except String (Nat × Int × DB)
  | [], _, db => Except.ok (0, 0, db)
  | s :: rest, idx, db =>
    if h : idx < rewards.length then
      match create_reward db s hw_cat (rewards.get ⟨idx, h⟩) idx now with
      | Except.error e => Except.error e
      | Except.ok db1 =>
          match award_loop hw_cat now rest (idx + 1) (check_and_assign_badges db1 s).2 with
          | Except.error e => Except.error e
          | Except.ok (n, p, db3) => Except.ok (n + 1, p + rewards.get ⟨idx, h⟩, db3)
    else
      award_loop hw_cat now rest (idx + 1) db

/-- The group loop of `assign_monthly_rewards` (`core/utils.py` lines
175-211), over groups in the model's default ordering
(`Meta.ordering = ['name']`); each group adds 1 to `groups_processed`. -/
def rewards_loop (hw_cat : Option PointCategory) (start end_ now : Int) :
    List Group → DB → Except String (RewardStats × DB)
  | [], db => Except.ok (⟨0, 0, 0⟩, db)
  | g :: rest, db =>
    match award_loop hw_cat now (top_students db g.id start end_) 0 db with
    | Except.error e => Except.error e
    | Except.ok (n, p, db1) =>
      match rewards_loop hw_cat start end_ now rest db1 with
      | Except.error e => Except.error e
      | Except.ok (st, db2) =>
          Except.ok (⟨st.groups_processed + 1, st.students_rewarded + n,
            st.points_awarded + p⟩, db2)

/-- Embeds `assign_monthly_rewards` (`core/utils.py` lines 150-213), parameterized by
the target month as the half-open window `[start, end_)` and by the clock
value `now` stamped on created events. -/
def assign_monthly_rewards (db : DB) (start end_ now : Int) :
    Except String (RewardStats × DB) :=
  rewards_loop (first_category_with_slug db "homework") start end_ now
    (List.insertionSort (fun a b : Group => a.name ≤ b.name) db.groups) db

/-! ### Comparison definition for the `top_rank` claim -/

/-- Modelled from the spec's words (claim C8), for comparison with the source:
the student's 1-based rank over the all-time total ordering WITH ties broken
by full name ascending (the ordering of the ranking service). -/
def claimed_top_rank (db : DB) (s : Student) : Nat :=
  ((rank_students db s.group_id none none).map (fun t => t.id)).indexOf s.id + 1

/-! ### Concrete fixtures used by witnesses and counterexamples -/

/-- A student fixture. -/
def wStudent : Student := ⟨1, 1, "Walter"⟩

/-- Ledger fixture: previous-window total 0, current-window total 10 for
`now = 20, days = 10`. -/
def trendZeroDB : DB := ⟨[], [], [wStudent], [⟨1, 1, 10, "", 15, ""⟩], [], []⟩

/-- Ledger fixture: previous-window total -10, current-window total 10 for
`now = 20, days = 10`. -/
def trendNegDB : DB :=
  ⟨[], [], [wStudent], [⟨1, 1, -10, "", 5, ""⟩, ⟨1, 1, 10, "", 15, ""⟩], [], []⟩

/-- A category fixture with `max_score = 10`. -/
def valCategory : PointCategory := ⟨1, "Homework", "homework", 10, true⟩

/-- An empty store fixture. -/
def emptyDB : DB := ⟨[valCategory], [], [wStudent], [], [], []⟩

/-- Group fixture. -/
def tieGroup : Group := ⟨1, "G"⟩

/-- Tie fixture: stored row order puts `tieBob` before `tieAlice`. -/
def tieBob : Student := ⟨1, 1, "Bob"⟩

/-- Tie fixture: lexicographically first name, stored second. -/
def tieAlice : Student := ⟨2, 1, "Alice"⟩

/-- A `top_rank` badge with threshold 1. -/
def tieBadge : Badge := ⟨1, "Top", "top_rank", 1, true⟩

/-- Store in which `tieBob` and `tieAlice` share the same all-time total 10;
`tieBob` is stored first. -/
def tieDB : DB :=
  ⟨[], [tieGroup], [tieBob, tieAlice],
    [⟨1, 1, 10, "", 5, ""⟩, ⟨2, 1, 10, "", 5, ""⟩], [tieBadge], []⟩

/-- Fixture: a student with no point events at all — summed score 0 in every
window by the spec's aggregation contract, but SQL `NULL` in
`Group.monthly_ranking`'s annotation. -/
def nullAnn : Student := ⟨1, 1, "Ann"⟩

/-- Fixture: a student with a single event of score -5 inside the window. -/
def nullBob : Student := ⟨2, 1, "Bob"⟩

/-- Store in which `nullAnn` has no events (monthly total `NULL`) and
`nullBob` has windowed total -5. -/
def nullDB : DB :=
  ⟨[], [tieGroup], [nullAnn, nullBob], [⟨2, 1, -5, "", 5, ""⟩], [], []⟩

/-- A `total_points` badge with threshold 10. -/
def tpBadge : Badge := ⟨1, "Ten", "total_points", 10, true⟩

/-- Store in which `wStudent` has total 10 and `tpBadge` is active and not yet
held. -/
def tpDB : DB := ⟨[], [tieGroup], [wStudent], [⟨1, 1, 10, "", 5, ""⟩], [tpBadge], []⟩

/-- A `homework_completion` badge with threshold 1. -/
def hwBadge : Badge := ⟨1, "Homeworker", "homework_completion", 1, true⟩

/-- Store with no category of slug "homework" but an active
`homework_completion` badge and a positive homework-less ledger. -/
def noHwDB : DB :=
  ⟨[⟨1, "Participation", "participation", 10, true⟩], [tieGroup], [wStudent],
    [⟨1, 1, 10, "", 5, ""⟩], [hwBadge], []⟩

/-- Category fixture for the reward scenario, `max_score = 20`. -/
def rewardCategory : PointCategory := ⟨1, "Homework", "homework", 20, true⟩

/-- Group fixture for the reward scenario. -/
def rewardGroup : Group := ⟨1, "G"⟩

/-- Reward-scenario student with monthly total 30. -/
def rwA : Student := ⟨1, 1, "Anna"⟩

/-- Reward-scenario student with monthly total 20. -/
def rwB : Student := ⟨2, 1, "Bena"⟩

/-- Reward-scenario student with monthly total 10. -/
def rwC : Student := ⟨3, 1, "Cora"⟩

/-- Reward-scenario student with monthly total 0. -/
def rwD : Student := ⟨4, 1, "Dina"⟩

/-- Reward-scenario store: one group of four students, a "homework" category,
no badges, and an arbitrary ledger `pts`. -/
def rewardDB (pts : List StudentPoint) : DB :=
  ⟨[rewardCategory], [rewardGroup], [rwA, rwB, rwC, rwD], pts, [], []⟩

/-- A concrete ledger giving the four reward-scenario students monthly totals
30, 20, 10, 0 in the window `[0, 10)`. -/
def rewardPts : List StudentPoint :=
  [⟨1, 1, 30, "", 5, ""⟩, ⟨2, 1, 20, "", 5, ""⟩, ⟨3, 1, 10, "", 5, ""⟩]

/-! ## Theorems -/

/-- C3: the level function maps total score to a level name with inclusive
breakpoints — `[0,50]` Beginner, `[51,150]` Intermediate, `[151,∞)` Pro, with
the boundary values 50/51/150/151 mapping as stated — and `Student.get_level`
is this function of the student's all-time total. -/
theorem get_level_breakpoints :
    (∀ total : Int,
      (0 ≤ total → total ≤ 50 → level_from_total total = "Beginner") ∧
      (51 ≤ total → total ≤ 150 → level_from_total total = "Intermediate") ∧
      (151 ≤ total → level_from_total total = "Pro")) ∧
    level_from_total 50 = "Beginner" ∧
    level_from_total 51 = "Intermediate" ∧
    level_from_total 150 = "Intermediate" ∧
    level_from_total 151 = "Pro" ∧
    ∀ (db : DB) (s : Student),
      Student.get_level db s = level_from_total (Student.total_score db s none none) := by
  refine ⟨fun total => ⟨fun _ h2 => ?_, fun h1 h2 => ?_, fun h1 => ?_⟩,
    by decide, by decide, by decide, by decide, fun db s => rfl⟩
  · unfold level_from_total
    rw [if_pos (by omega)]
  · unfold level_from_total
    rw [if_neg (by omega), if_pos (by omega)]
  · unfold level_from_total
    rw [if_neg (by omega), if_neg (by omega)]

/-- Witness for C3: the theorem applied at the concrete totals 50 and 151. -/
theorem get_level_breakpoints_witness :
    level_from_total 50 = "Beginner" ∧ level_from_total 151 = "Pro" :=
  ⟨(get_level_breakpoints.1 50).1 (by decide) (by decide),
    (get_level_breakpoints.1 151).2.2 (by decide)⟩

/-- C4: below Pro the progress percentage is
`(total - current_min) / (current_max - current_min + 1) * 100` clamped to at
most 100 (with the tier bounds of `get_level_thresholds`), it is 0 at
total = 51 and 99 at total = 150, and at Pro it is unconditionally 100;
`Student.get_progress_percentage` is this function of the all-time total. -/
theorem get_progress_formula :
    (∀ total : Int, level_from_total total ≠ "Pro" →
      ∃ cmax : Int, (thresholds_from_total total).current_max = some cmax ∧
        progress_from_total total =
          min 100 (((total : ℚ) - ((thresholds_from_total total).current_min : ℚ)) /
            ((cmax : ℚ) - ((thresholds_from_total total).current_min : ℚ) + 1) * 100)) ∧
    (∀ total : Int, level_from_total total = "Pro" → progress_from_total total = 100) ∧
    (∀ total : Int, progress_from_total total ≤ 100) ∧
    progress_from_total 51 = 0 ∧
    progress_from_total 150 = 99 ∧
    ∀ (db : DB) (s : Student),
      Student.get_progress_percentage db s =
        progress_from_total (Student.total_score db s none none) := by
  have hcase : ∀ total : Int, total < 51 ∨ (51 ≤ total ∧ total < 151) ∨ 151 ≤ total :=
    fun total => by omega
  refine ⟨fun total hnp => ?_, fun total hp => ?_, fun total => ?_,
    by norm_num [progress_from_total, thresholds_from_total],
    by norm_num [progress_from_total, thresholds_from_total],
    fun db s => rfl⟩
  · rcases hcase total with h | ⟨h1, h2⟩ | h
    · refine ⟨50, ?_, ?_⟩ <;>
        simp [thresholds_from_total, progress_from_total, level_from_total, h]
    · refine ⟨150, ?_, ?_⟩ <;>
        simp [thresholds_from_total, progress_from_total, level_from_total, h1, h2,
          not_lt.mpr h1]
    · exact absurd (by unfold level_from_total; rw [if_neg (by omega), if_neg (by omega)]) hnp
  · rcases hcase total with h | ⟨h1, h2⟩ | h
    · rw [show level_from_total total = "Beginner" from by
        unfold level_from_total; rw [if_pos h]] at hp
      exact absurd hp (by decide)
    · rw [show level_from_total total = "Intermediate" from by
        unfold level_from_total; rw [if_neg (by omega), if_pos h2]] at hp
      exact absurd hp (by decide)
    · simp [progress_from_total, thresholds_from_total, not_lt.mpr (by omega : (51:Int) ≤ total),
        not_lt.mpr h]
  · rcases hcase total with h | ⟨h1, h2⟩ | h
    · simp only [progress_from_total, thresholds_from_total, if_pos h]
      exact min_le_left _ _
    · simp only [progress_from_total, thresholds_from_total, if_neg (not_lt.mpr h1), if_pos h2]
      exact min_le_left _ _
    · simp [progress_from_total, thresholds_from_total, not_lt.mpr (by omega : (51:Int) ≤ total),
        not_lt.mpr h]

/-- Witness for C4: the theorem applied at the concrete totals 51 and 151. -/
theorem get_progress_formula_witness :
    progress_from_total 51 = 0 ∧ progress_from_total 151 = 100 :=
  ⟨get_progress_formula.2.2.2.1, get_progress_formula.2.1 151 (by decide)⟩

/-- C5: for every student and window, the trend satisfies
`change = current - previous`; when `previous = 0` the percentage is 100 for
positive `current` and 0 otherwise; and the direction is "up"/"down"/"neutral"
by strict comparison of `current` and `previous`. -/
theorem get_trend_contract (db : DB) (s : Student) (now days : Int) :
    (Student.get_trend db s now days).change =
      (Student.get_trend db s now days).current -
        (Student.get_trend db s now days).previous ∧
    ((Student.get_trend db s now days).previous = 0 →
      (Student.get_trend db s now days).change_percent =
        if 0 < (Student.get_trend db s now days).current then (100 : ℚ) else 0) ∧
    ((Student.get_trend db s now days).previous <
        (Student.get_trend db s now days).current →
      (Student.get_trend db s now days).direction = "up") ∧
    ((Student.get_trend db s now days).current <
        (Student.get_trend db s now days).previous →
      (Student.get_trend db s now days).direction = "down") ∧
    ((Student.get_trend db s now days).current =
        (Student.get_trend db s now days).previous →
      (Student.get_trend db s now days).direction = "neutral") := by
  dsimp only [Student.get_trend]
  refine ⟨rfl, fun h0 => ?_, fun hup => ?_, fun hdn => ?_, fun heq => ?_⟩
  · rw [if_pos h0]
  · rw [if_pos hup]
  · rw [if_neg (by omega), if_pos hdn]
  · rw [if_neg (by omega), if_neg (by omega)]

/-- Witness for C5: `previous = 0`, `current = 10` gives percentage 100 and
direction "up" on a concrete store. -/
theorem get_trend_contract_witness :
    (Student.get_trend trendZeroDB wStudent 20 10).previous = 0 ∧
    (Student.get_trend trendZeroDB wStudent 20 10).change_percent = 100 ∧
    (Student.get_trend trendZeroDB wStudent 20 10).direction = "up" := by
  refine ⟨by decide, ?_, ?_⟩
  · rw [(get_trend_contract trendZeroDB wStudent 20 10).2.1 (by decide)]
    rw [show (Student.get_trend trendZeroDB wStudent 20 10).current = 10 from by decide]
    norm_num
  · exact (get_trend_contract trendZeroDB wStudent 20 10).2.2.1 (by decide)

/-- C10: when `previous ≠ 0` the trend percentage is
`(current - previous) / |previous| * 100`, with the absolute value in the
denominator. -/
theorem get_trend_change_percent_nonzero (db : DB) (s : Student) (now days : Int)
    (h : (Student.get_trend db s now days).previous ≠ 0) :
    (Student.get_trend db s now days).change_percent =
      (((Student.get_trend db s now days).current : ℚ) -
        ((Student.get_trend db s now days).previous : ℚ)) /
        |((Student.get_trend db s now days).previous : ℚ)| * 100 := by
  dsimp only [Student.get_trend] at h ⊢
  rw [if_neg h]

/-- Witness for C10: `previous = -10`, `current = 10` gives percentage +200 on
a concrete store. -/
theorem get_trend_change_percent_nonzero_witness :
    (Student.get_trend trendNegDB wStudent 20 10).previous = -10 ∧
    (Student.get_trend trendNegDB wStudent 20 10).change_percent = 200 := by
  refine ⟨by decide, ?_⟩
  rw [get_trend_change_percent_nonzero trendNegDB wStudent 20 10 (by decide)]
  rw [show (Student.get_trend trendNegDB wStudent 20 10).current = 10 from by decide,
    show (Student.get_trend trendNegDB wStudent 20 10).previous = -10 from by decide]
  norm_num

/-- C6: saving a point event fails validation (persisting nothing) exactly
when the event's absolute score exceeds its category's `max_score`, and an
event with `|score| = max_score` is always persisted. -/
theorem save_validates_max_score (db : DB) (p : StudentPoint) (cat : PointCategory) :
    ((∃ e, StudentPoint.save db p cat = Except.error e) ↔
      (cat.max_score : Int) < |p.score|) ∧
    (|p.score| = (cat.max_score : Int) →
      StudentPoint.save db p cat = Except.ok { db with points := db.points ++ [p] }) := by
  unfold StudentPoint.save StudentPoint.clean
  by_cases h : (cat.max_score : Int) < |p.score|
  · refine ⟨by simp [h], fun he => absurd he (by omega)⟩
  · refine ⟨by simp [h], fun _ => by simp [h]⟩

/-- Witness for C6: with `max_score = 10`, a score-10 event is persisted and a
score-11 event is rejected. -/
theorem save_validates_max_score_witness :
    StudentPoint.save emptyDB ⟨1, 1, 10, "", 0, ""⟩ valCategory =
      Except.ok { emptyDB with points := emptyDB.points ++ [⟨1, 1, 10, "", 0, ""⟩] } ∧
    ∃ e, StudentPoint.save emptyDB ⟨1, 1, 11, "", 0, ""⟩ valCategory = Except.error e :=
  ⟨(save_validates_max_score emptyDB ⟨1, 1, 10, "", 0, ""⟩ valCategory).2 (by decide),
    (save_validates_max_score emptyDB ⟨1, 1, 11, "", 0, ""⟩ valCategory).1.mpr (by decide)⟩

/-- C7 counterexample: in `nullDB` with the window `[0, 10)` the student
`nullAnn` has summed score 0 — higher than `nullBob`'s -5, and her name also
precedes his — yet `Group.monthly_ranking` places her last: her annotated
total is SQL `NULL` (no events in the window), which is not 0 and sorts after
every numeric total under the descending key. -/
theorem monthly_ranking_null_counterexample :
    Student.total_score nullDB nullAnn (some 0) (some 10) = 0 ∧
    Student.total_score nullDB nullBob (some 0) (some 10) = -5 ∧
    nullAnn.full_name ≤ nullBob.full_name ∧
    monthly_total nullDB nullAnn.id 0 10 = ⊥ ∧
    monthly_total nullDB nullBob.id 0 10 = ((-5 : Int) : WithBot Int) ∧
    Group.monthly_ranking nullDB tieGroup.id 0 10 = [nullBob, nullAnn] := by decide

/-- C7 amended: for a group and a month window, `Group.monthly_ranking`
returns a permutation of the roster ordered by nullable monthly total
descending — a student with no events in the window carries `NULL` (`⊥`),
not 0, and all such students follow every student with events — with ties on
the total (including among the `NULL` group) broken by full name ascending. -/
theorem monthly_ranking_spec (db : DB) (gid : Nat) (start end_ : Int) :
    (Group.monthly_ranking db gid start end_).Perm (groupStudents db gid) ∧
    (Group.monthly_ranking db gid start end_).Pairwise (fun a b =>
      monthly_total db b.id start end_ ≤ monthly_total db a.id start end_ ∧
      (monthly_total db a.id start end_ = monthly_total db b.id start end_ →
        a.full_name ≤ b.full_name)) ∧
    (Group.monthly_ranking db gid start end_).Pairwise (fun a b =>
      monthly_total db a.id start end_ = ⊥ → monthly_total db b.id start end_ = ⊥) := by
  have hs := List.sorted_insertionSort (monthlyRankRel db start end_) (groupStudents db gid)
  refine ⟨List.perm_insertionSort _ _, ?_, ?_⟩
  · refine List.Pairwise.imp ?_ hs
    intro a b hab
    rcases hab with h | ⟨h, hn⟩
    · exact ⟨h.le, fun he => absurd (he ▸ h) (lt_irrefl _)⟩
    · exact ⟨h.ge, fun _ => hn⟩
  · refine List.Pairwise.imp ?_ hs
    intro a b hab hbot
    rcases hab with h | ⟨h, _⟩
    · rw [hbot] at h
      exact absurd h (by simp)
    · exact h ▸ hbot

/-- Witness for the amended C7: the concrete order on `nullDB` (numeric total
before `NULL`), via the theorem's permutation part. -/
theorem monthly_ranking_spec_witness :
    Group.monthly_ranking nullDB tieGroup.id 0 10 = [nullBob, nullAnn] ∧
    (Group.monthly_ranking nullDB tieGroup.id 0 10).Perm
      (groupStudents nullDB tieGroup.id) :=
  ⟨by decide, (monthly_ranking_spec nullDB tieGroup.id 0 10).1⟩

/-- C8 counterexample: in `tieDB` the students `tieBob` and `tieAlice` share
the all-time total 10 and `tieBob` is stored first; by the claim's ordering
(ties broken by full name ascending) `tieAlice` has rank 1 ≤ criteria_value,
yet the code does not qualify her and awards her nothing, because the
`top_rank` branch orders by total only. -/
theorem top_rank_tie_counterexample :
    claimed_top_rank tieDB tieAlice = 1 ∧
    tieBadge.criteria_type = "top_rank" ∧
    tieBadge.criteria_value = 1 ∧
    tieBadge ∈ tieDB.badges ∧
    tieBadge.is_active = true ∧
    badge_qualifies tieDB tieAlice tieBadge = false ∧
    tieBadge ∉ (check_and_assign_badges tieDB tieAlice).1 := by decide

/-- C8 amended: a `top_rank` badge qualifies exactly when the student's
1-based rank, computed over all-time totals descending with ties kept in
stored row order (no name tiebreak), is ≤ `criteria_value`; with
`criteria_value = 1` exactly the rank-1 student of that ordering qualifies. -/
theorem top_rank_qualifies_iff (db : DB) (s : Student) (b : Badge)
    (h : b.criteria_type = "top_rank") :
    (badge_qualifies db s b = true ↔ student_rank db s ≤ b.criteria_value) ∧
    (b.criteria_value = 1 →
      (badge_qualifies db s b = true ↔ student_rank db s = 1)) := by
  have hq : badge_qualifies db s b = decide (student_rank db s ≤ b.criteria_value) := by
    unfold badge_qualifies
    rw [h]
    rfl
  constructor
  · rw [hq]
    exact decide_eq_true_iff
  · intro h1
    rw [hq, h1, decide_eq_true_iff]
    unfold student_rank
    omega

/-- Witness for the amended C8: in `tieDB` the stored-first student `tieBob`
has rank 1 and qualifies. -/
theorem top_rank_qualifies_iff_witness :
    badge_qualifies tieDB tieBob tieBadge = true ∧ student_rank tieDB tieBob = 1 :=
  ⟨((top_rank_qualifies_iff tieDB tieBob tieBadge rfl).1).mpr (by decide), by decide⟩

/-! ### Helper lemmas on the badge loop -/

/-- States that `badge_qualifies` reads only the `categories`, `students` and `points`
tables, so replacing `student_badges` leaves it unchanged. -/
theorem badge_qualifies_sb_irrel (db : DB) (l : List StudentBadge) (s : Student) (b : Badge) :
    badge_qualifies { db with student_badges := l } s b = badge_qualifies db s b := rfl

/-- One badge-loop step leaves qualification of any badge unchanged. -/
theorem badge_step_qualifies_irrel (t s : Student) (acc : List Badge × DB) (hd b : Badge) :
    badge_qualifies (badge_step t acc hd).2 s b = badge_qualifies acc.2 s b := by
  unfold badge_step
  split_ifs
  · rfl
  · exact badge_qualifies_sb_irrel acc.2 _ s b
  · rfl

/-- One badge-loop step preserves an existing `StudentBadge` fact. -/
theorem badge_step_hasBadge_mono (t : Student) (acc : List Badge × DB) (hd : Badge)
    (sid bid : Nat) (h : hasBadge acc.2 sid bid = true) :
    hasBadge (badge_step t acc hd).2 sid bid = true := by
  unfold badge_step
  split_ifs
  · exact h
  · unfold hasBadge at h ⊢
    simp only [List.any_append, h, Bool.true_or]
  · exact h

/-- One badge-loop step keeps every newly-earned badge recorded. -/
theorem badge_step_newly_recorded (s : Student) (acc : List Badge × DB) (hd : Badge)
    (hinv : ∀ b ∈ acc.1, hasBadge acc.2 s.id b.id = true) :
    ∀ b ∈ (badge_step s acc hd).1, hasBadge (badge_step s acc hd).2 s.id b.id = true := by
  intro b hb
  unfold badge_step at hb ⊢
  split_ifs at hb ⊢ with h1 h2
  · exact hinv b hb
  · rcases List.mem_append.mp hb with hmem | hmem
    · have hprev := hinv b hmem
      unfold hasBadge at hprev ⊢
      simp only [List.any_append, hprev, Bool.true_or]
    · have hbhd : b = hd := by simpa using hmem
      subst hbhd
      unfold hasBadge
      simp [List.any_append]
  · exact hinv b hb

/-- The whole badge loop keeps every newly-earned badge recorded. -/
theorem foldl_newly_recorded (s : Student) :
    ∀ (bs : List Badge) (acc : List Badge × DB),
      (∀ b ∈ acc.1, hasBadge acc.2 s.id b.id = true) →
      ∀ b ∈ (bs.foldl (badge_step s) acc).1,
        hasBadge (bs.foldl (badge_step s) acc).2 s.id b.id = true := by
  intro bs
  induction bs with
  | nil => exact fun acc hinv => hinv
  | cons hd tl ih =>
    intro acc hinv
    exact ih (badge_step s acc hd) (badge_step_newly_recorded s acc hd hinv)

/-- For a badge already recorded, the badge loop neither creates another
record for it nor adds it to the newly-earned list. -/
theorem foldl_held_badge (s : Student) (bid : Nat) :
    ∀ (bs : List Badge) (acc : List Badge × DB),
      hasBadge acc.2 s.id bid = true →
      sbCount (bs.foldl (badge_step s) acc).2.student_badges s.id bid =
        sbCount acc.2.student_badges s.id bid ∧
      ∀ b ∈ (bs.foldl (badge_step s) acc).1, b.id = bid → b ∈ acc.1 := by
  intro bs
  induction bs with
  | nil => exact fun acc _ => ⟨rfl, fun b hb _ => hb⟩
  | cons hd tl ih =>
    intro acc h
    simp only [List.foldl_cons]
    have hstep : hasBadge (badge_step s acc hd).2 s.id bid = true ∧
        sbCount (badge_step s acc hd).2.student_badges s.id bid =
          sbCount acc.2.student_badges s.id bid ∧
        ∀ b ∈ (badge_step s acc hd).1, b.id = bid → b ∈ acc.1 := by
      unfold badge_step
      split_ifs with h1 h2
      · exact ⟨h, rfl, fun b hb _ => hb⟩
      · have hne : hd.id ≠ bid := by
          intro he
          rw [he] at h1
          exact h1 h
        refine ⟨?_, ?_, ?_⟩
        · unfold hasBadge at h ⊢
          simp only [List.any_append, h, Bool.true_or]
        · simp [sbCount, List.filter_append, hne]
        · intro b hb hbid
          rcases List.mem_append.mp hb with hmem | hmem
          · exact hmem
          · have hbhd : b = hd := by simpa using hmem
            exact absurd (hbhd ▸ hbid) hne
      · exact ⟨h, rfl, fun b hb _ => hb⟩
    obtain ⟨hhas, hcnt, hmem⟩ := hstep
    obtain ⟨ihc, ihm⟩ := ih (badge_step s acc hd) hhas
    exact ⟨ihc.trans hcnt, fun b hb hbid => hmem b (ihm b hb hbid) hbid⟩

/-- For a badge that cannot qualify (and whose id no other badge row shares),
the badge loop adds it to neither the newly-earned list nor the records. -/
theorem foldl_unqualified (s : Student) (b : Badge) :
    ∀ (bs : List Badge) (acc : List Badge × DB),
      badge_qualifies acc.2 s b = false →
      (∀ b' ∈ bs, b'.id = b.id → b' = b) →
      (∀ b' ∈ (bs.foldl (badge_step s) acc).1, b'.id = b.id → b' ∈ acc.1) ∧
      sbCount (bs.foldl (badge_step s) acc).2.student_badges s.id b.id =
        sbCount acc.2.student_badges s.id b.id := by
  intro bs
  induction bs with
  | nil => exact fun acc _ _ => ⟨fun b' hb _ => hb, rfl⟩
  | cons hd tl ih =>
    intro acc hq halias
    simp only [List.foldl_cons]
    have hstep : (∀ b' ∈ (badge_step s acc hd).1, b'.id = b.id → b' ∈ acc.1) ∧
        sbCount (badge_step s acc hd).2.student_badges s.id b.id =
          sbCount acc.2.student_badges s.id b.id := by
      unfold badge_step
      split_ifs with h1 h2
      · exact ⟨fun b' hb _ => hb, rfl⟩
      · have hne : hd.id ≠ b.id := by
          intro he
          rw [halias hd (List.mem_cons_self hd tl) he, hq] at h2
          exact Bool.noConfusion h2
        refine ⟨?_, ?_⟩
        · intro b' hb' hid
          rcases List.mem_append.mp hb' with hmem | hmem
          · exact hmem
          · have : b' = hd := by simpa using hmem
            exact absurd (this ▸ hid) hne
        · simp [sbCount, List.filter_append, hne]
      · exact ⟨fun b' hb _ => hb, rfl⟩
    obtain ⟨hm1, hc1⟩ := hstep
    obtain ⟨hm2, hc2⟩ := ih (badge_step s acc hd)
      (by rw [badge_step_qualifies_irrel]; exact hq)
      (fun b' h => halias b' (List.mem_cons_of_mem _ h))
    exact ⟨fun b' hb hid => hm1 b' (hm2 b' hb hid) hid, hc2.trans hc1⟩

/-- C2: badge evaluation is idempotent — every badge returned by a call is
recorded by that call, is not returned again by an immediately following call
for the same student, and gets no second record from it; a badge already held
before a call is never returned by it and never duplicated. -/
theorem evaluate_badges_idempotent (db : DB) (s : Student) :
    (∀ b ∈ (check_and_assign_badges db s).1,
      hasBadge (check_and_assign_badges db s).2 s.id b.id = true ∧
      b ∉ (check_and_assign_badges (check_and_assign_badges db s).2 s).1 ∧
      sbCount (check_and_assign_badges
          (check_and_assign_badges db s).2 s).2.student_badges s.id b.id =
        sbCount (check_and_assign_badges db s).2.student_badges s.id b.id) ∧
    ∀ b : Badge, hasBadge db s.id b.id = true →
      b ∉ (check_and_assign_badges db s).1 ∧
      sbCount (check_and_assign_badges db s).2.student_badges s.id b.id =
        sbCount db.student_badges s.id b.id := by
  constructor
  · intro b hb
    have hrec : hasBadge (check_and_assign_badges db s).2 s.id b.id = true :=
      foldl_newly_recorded s (active_badges db) ([], db) (by simp) b hb
    refine ⟨hrec, ?_, ?_⟩
    · intro hb2
      have := (foldl_held_badge s b.id
          (active_badges (check_and_assign_badges db s).2)
          ([], (check_and_assign_badges db s).2) hrec).2 b hb2 rfl
      simp at this
    · exact (foldl_held_badge s b.id
        (active_badges (check_and_assign_badges db s).2)
        ([], (check_and_assign_badges db s).2) hrec).1
  · intro b hb
    refine ⟨?_, (foldl_held_badge s b.id (active_badges db) ([], db) hb).1⟩
    intro hb1
    have := (foldl_held_badge s b.id (active_badges db) ([], db) hb).2 b hb1 rfl
    simp at this

/-- Witness for C2: on `tpDB` the first call awards `tpBadge`, the second call
does not return it and creates no second record. -/
theorem evaluate_badges_idempotent_witness :
    tpBadge ∈ (check_and_assign_badges tpDB wStudent).1 ∧
    tpBadge ∉ (check_and_assign_badges
      (check_and_assign_badges tpDB wStudent).2 wStudent).1 ∧
    sbCount (check_and_assign_badges
        (check_and_assign_badges tpDB wStudent).2 wStudent).2.student_badges
      wStudent.id tpBadge.id =
      sbCount (check_and_assign_badges tpDB wStudent).2.student_badges
        wStudent.id tpBadge.id :=
  ⟨by decide,
    ((evaluate_badges_idempotent tpDB wStudent).1 tpBadge (by decide)).2.1,
    ((evaluate_badges_idempotent tpDB wStudent).1 tpBadge (by decide)).2.2⟩

/-- If no stored category carries the slug, the slug lookup returns nothing. -/
theorem first_category_with_slug_eq_none (db : DB) (sl : String)
    (h : ∀ c ∈ db.categories, ¬ c.slug = sl) :
    first_category_with_slug db sl = none := by
  unfold first_category_with_slug
  have hf : db.categories.filter (fun c => c.slug == sl) = [] := by
    rw [List.filter_eq_nil_iff]
    intro c hc
    simpa using h c hc
  rw [hf]
  rfl

/-- A category-based badge criterion whose slug is absent never qualifies. -/
theorem badge_qualifies_missing_slug (db : DB) (s : Student) (b : Badge) (sl : String)
    (hslug : slug_for_criteria b.criteria_type = some sl)
    (hmissing : ∀ c ∈ db.categories, ¬ c.slug = sl) :
    badge_qualifies db s b = false := by
  have hnone := first_category_with_slug_eq_none db sl hmissing
  unfold slug_for_criteria at hslug
  split_ifs at hslug with h1 h2 h3
  · have hct : b.criteria_type = "homework_completion" := by simpa using h1
    have hsl : sl = "homework" := by simpa using hslug.symm
    have hred : badge_qualifies db s b =
        match first_category_with_slug db "homework" with
        | some cat => decide (b.criteria_value ≤ positive_count db s.id cat.id)
        | none => false := by
      unfold badge_qualifies
      rw [hct]
      rfl
    rw [hsl] at hnone
    rw [hred, hnone]
  · have hct : b.criteria_type = "participation_count" := by simpa using h2
    have hsl : sl = "participation" := by simpa using hslug.symm
    have hred : badge_qualifies db s b =
        match first_category_with_slug db "participation" with
        | some cat => decide (b.criteria_value ≤ positive_count db s.id cat.id)
        | none => false := by
      unfold badge_qualifies
      rw [hct]
      rfl
    rw [hsl] at hnone
    rw [hred, hnone]
  · have hct : b.criteria_type = "attendance_count" := by simpa using h3
    have hsl : sl = "attendance" := by simpa using hslug.symm
    have hred : badge_qualifies db s b =
        match first_category_with_slug db "attendance" with
        | some cat => decide (b.criteria_value ≤ positive_count db s.id cat.id)
        | none => false := by
      unfold badge_qualifies
      rw [hct]
      rfl
    rw [hsl] at hnone
    rw [hred, hnone]

/-- C9: when a badge's criterion requires a category slug that no stored
category carries, evaluation completes normally, never qualifies the badge,
returns it in no result, and leaves the student's records for it untouched. -/
theorem missing_category_fails_closed (db : DB) (s : Student) (b : Badge) (sl : String)
    (hslug : slug_for_criteria b.criteria_type = some sl)
    (hmissing : ∀ c ∈ db.categories, ¬ c.slug = sl)
    (halias : ∀ b' ∈ db.badges, b'.id = b.id → b' = b) :
    badge_qualifies db s b = false ∧
    b ∉ (check_and_assign_badges db s).1 ∧
    sbCount (check_and_assign_badges db s).2.student_badges s.id b.id =
      sbCount db.student_badges s.id b.id := by
  have hq := badge_qualifies_missing_slug db s b sl hslug hmissing
  have halias' : ∀ b' ∈ active_badges db, b'.id = b.id → b' = b := by
    intro b' hb'
    refine halias b' ?_
    have hmemf : b' ∈ db.badges.filter (fun x => x.is_active) :=
      (List.perm_insertionSort (fun a b : Badge => a.name ≤ b.name)
        (db.badges.filter fun x => x.is_active)).subset hb'
    exact List.mem_of_mem_filter hmemf
  obtain ⟨hm, hc⟩ := foldl_unqualified s b (active_badges db) ([], db) hq halias'
  refine ⟨hq, ?_, hc⟩
  intro hb
  have := hm b hb rfl
  simp at this

/-- Witness for C9: on `noHwDB` (no "homework" slug) the active
`homework_completion` badge is neither qualified nor awarded. -/
theorem missing_category_fails_closed_witness :
    badge_qualifies noHwDB wStudent hwBadge = false ∧
    hwBadge ∉ (check_and_assign_badges noHwDB wStudent).1 :=
  ⟨(missing_category_fails_closed noHwDB wStudent hwBadge "homework" (by decide)
      (by decide) (by decide)).1,
    (missing_category_fails_closed noHwDB wStudent hwBadge "homework" (by decide)
      (by decide) (by decide)).2.1⟩

/-- C1: on a store with one group whose four students have monthly totals
30, 20, 10 and 0 in the window (and a "homework" category admitting the reward
scores), the scheduler returns `students_rewarded = 3` and
`points_awarded = 30`, creates exactly one new point event per rewarded
student with scores 15/10/5 under the "homework" category, and creates no
event for the zero-total student. -/
theorem monthly_rewards_scenario (pts : List StudentPoint) (start end_ now : Int)
    (hA : Student.total_score (rewardDB pts) rwA (some start) (some end_) = 30)
    (hB : Student.total_score (rewardDB pts) rwB (some start) (some end_) = 20)
    (hC : Student.total_score (rewardDB pts) rwC (some start) (some end_) = 10)
    (hD : Student.total_score (rewardDB pts) rwD (some start) (some end_) = 0) :
    ∃ db' : DB,
      assign_monthly_rewards (rewardDB pts) start end_ now =
        Except.ok ({ groups_processed := 1, students_rewarded := 3, points_awarded := 30 },
          db') ∧
      db'.points = pts ++
        [⟨rwA.id, rewardCategory.id, 15, "Monthly Reward", now, reward_note 0⟩,
         ⟨rwB.id, rewardCategory.id, 10, "Monthly Reward", now, reward_note 1⟩,
         ⟨rwC.id, rewardCategory.id, 5, "Monthly Reward", now, reward_note 2⟩] ∧
      ∀ p ∈ db'.points, p ∉ pts → p.student_id ≠ rwD.id := by
  have hstudents : (rewardDB pts).students = [rwA, rwB, rwC, rwD] := rfl
  have g1 : (rwA.group_id == rewardGroup.id) = true := rfl
  have g2 : (rwB.group_id == rewardGroup.id) = true := rfl
  have g3 : (rwC.group_id == rewardGroup.id) = true := rfl
  have g4 : (rwD.group_id == rewardGroup.id) = true := rfl
  have htop : top_students (rewardDB pts) rewardGroup.id start end_ = [rwA, rwB, rwC] := by
    simp only [top_students, groupStudents, hstudents, List.filter_cons, List.filter_nil,
      g1, g2, g3, g4, if_true]
    norm_num [hA, hB, hC, hD, scoreDescRel]
  have h0 : assign_monthly_rewards (rewardDB pts) start end_ now =
      rewards_loop (some rewardCategory) start end_ now [rewardGroup] (rewardDB pts) := rfl
  have hassign : assign_monthly_rewards (rewardDB pts) start end_ now =
      Except.ok ({ groups_processed := 1, students_rewarded := 3, points_awarded := 30 },
        { rewardDB pts with points :=
            ((pts ++ [⟨rwA.id, rewardCategory.id, 15, "Monthly Reward", now, reward_note 0⟩])
              ++ [⟨rwB.id, rewardCategory.id, 10, "Monthly Reward", now, reward_note 1⟩])
              ++ [⟨rwC.id, rewardCategory.id, 5, "Monthly Reward", now, reward_note 2⟩] }) := by
    rw [h0]
    unfold rewards_loop
    rw [htop]
    rfl
  refine ⟨_, hassign, ?_, ?_⟩
  · simp [List.append_assoc]
  · intro p hp hnot
    have hmem : p ∈
        [(⟨rwA.id, rewardCategory.id, 15, "Monthly Reward", now, reward_note 0⟩ : StudentPoint),
         ⟨rwB.id, rewardCategory.id, 10, "Monthly Reward", now, reward_note 1⟩,
         ⟨rwC.id, rewardCategory.id, 5, "Monthly Reward", now, reward_note 2⟩] := by
      have hp' : p ∈ pts ++
          [(⟨rwA.id, rewardCategory.id, 15, "Monthly Reward", now, reward_note 0⟩ : StudentPoint),
           ⟨rwB.id, rewardCategory.id, 10, "Monthly Reward", now, reward_note 1⟩,
           ⟨rwC.id, rewardCategory.id, 5, "Monthly Reward", now, reward_note 2⟩] := by
        simpa [List.append_assoc] using hp
      rcases List.mem_append.mp hp' with h | h
      · exact absurd h hnot
      · exact h
    simp only [List.mem_cons, List.not_mem_nil, or_false] at hmem
    rcases hmem with h | h | h
    · rw [h]
      exact (by decide : rwA.id ≠ rwD.id)
    · rw [h]
      exact (by decide : rwB.id ≠ rwD.id)
    · rw [h]
      exact (by decide : rwC.id ≠ rwD.id)

/-- Witness for C1: on the concrete ledger `rewardPts` with window `[0, 10)`,
the scheduler produces the claimed statistics. -/
theorem monthly_rewards_scenario_witness :
    Student.total_score (rewardDB rewardPts) rwA (some 0) (some 10) = 30 ∧
    ∃ db' : DB,
      assign_monthly_rewards (rewardDB rewardPts) 0 10 7 =
        Except.ok ({ groups_processed := 1, students_rewarded := 3, points_awarded := 30 },
          db') :=
  ⟨by decide, by
    obtain ⟨db', h1, _, _⟩ := monthly_rewards_scenario rewardPts 0 10 7
      (by decide) (by decide) (by decide) (by decide)
    exact ⟨db', h1⟩⟩

end Geeksboard
